import Mathlib

/-!
Verification of the SystemMonitor repository (src/SystemMonitor/monitor.py)
against its natural-language specification.

The Python code is shallowly embedded: time stamps and percentages (Python
floats) become rationals, the `MetricsCache` dict becomes a map from keys to
optional entries, thread liveness becomes explicit boolean state, and Python
exceptions become `Except` results.
-/

/-- Embedding of `CachedMetric` (monitor.py lines 18-26): a cached value with
its capture timestamp and time-to-live. -/
structure CachedMetric (α : Type) where
  value : α
  timestamp : ℚ
  ttl : ℚ
deriving DecidableEq

/-- `CachedMetric.is_expired` (monitor.py line 25-26): expired when
`now - timestamp > ttl` (strict). `now` stands for `time.time()`. -/
def CachedMetric.is_expired (m : CachedMetric α) (now : ℚ) : Bool :=
  decide (now - m.timestamp > m.ttl)

/-- Embedding of the `MetricsCache` dict `self.cache` (monitor.py line 33):
a Python dict from string keys to `CachedMetric`, modelled extensionally. -/
abbrev MetricsCache (α : Type) := String → Option (CachedMetric α)

/-- The freshly constructed empty cache (`MetricsCache.__init__`). -/
def MetricsCache.empty {α : Type} : MetricsCache α := fun _ => none

/-- `MetricsCache.get` (monitor.py lines 36-41): return the cached value only
if the key is present and the entry is not expired; otherwise `None`. -/
def MetricsCache.get (c : MetricsCache α) (now : ℚ) (key : String) : Option α :=
  match c key with
  | some m => if m.is_expired now then none else some m.value
  | none => none

/-- `MetricsCache.set` (monitor.py lines 43-46): unconditionally store
`CachedMetric(value, time.time(), ttl)` under `key`; `now` is the call time. -/
def MetricsCache.set (c : MetricsCache α) (key : String) (value : α)
    (now ttl : ℚ) : MetricsCache α :=
  fun k => if k = key then some ⟨value, now, ttl⟩ else c k

/-- `MetricsCache.clear_expired` (monitor.py lines 48-54): delete exactly the
keys whose entry satisfies `current_time - v.timestamp > v.ttl` (the code
inlines the comparison rather than calling `is_expired`). -/
def MetricsCache.clear_expired (c : MetricsCache α) (now : ℚ) : MetricsCache α :=
  fun k =>
    match c k with
    | some m => if now - m.timestamp > m.ttl then none else some m
    | none => none

/-!
## Scheduler state machine

`Monitor.start` / `Monitor.stop` / `Monitor.is_running`
(monitor.py lines 205-211 and 391-412).

Thread state is made explicit: `stop_event` is `self._stop_event.is_set()`,
and `threads` records the liveness of every monitoring-loop thread ever
launched, newest first, so that "exactly one active loop" is expressible.
`self._monitoring_thread` (the tracked handle) is the head; `[]` is the
initial `None`. All start/stop bodies run under `self._running_lock`, so the
sequential embedding is faithful.
-/

structure Monitor where
  stop_event : Bool
  threads : List Bool
deriving DecidableEq

/-- State after `Monitor.__init__` (monitor.py lines 200-203): stop event
unset, `_monitoring_thread = None`. -/
def Monitor.initial : Monitor := ⟨false, []⟩

/-- Number of monitoring loops currently alive. -/
def Monitor.activeLoops (m : Monitor) : Nat := m.threads.count true

/-- `Monitor.is_running` (monitor.py lines 205-211): the tracked thread is
not `None`, is alive, and the stop event is not set. -/
def Monitor.is_running (m : Monitor) : Bool :=
  match m.threads with
  | alive :: _ => alive && !m.stop_event
  | [] => false

/-- `Monitor.start` (monitor.py lines 391-403): return immediately when the
stop event is set; return when the tracked thread exists and is alive;
otherwise clear the stop event and launch one new loop thread. -/
def Monitor.start (m : Monitor) : Monitor :=
  if m.stop_event then m
  else if m.threads.headD false then m
  else { stop_event := false, threads := true :: m.threads }

/-- `Monitor.stop` (monitor.py lines 405-412): if the stop event is not yet
set, set it and join the tracked thread (2 s timeout). Every launched loop
waits on the shared stop event with a wait of at most 1 s between checks, so
each live loop observes the event and exits; this is modelled as all loop
threads becoming dead. -/
def Monitor.stop (m : Monitor) : Monitor :=
  if m.stop_event then m
  else { stop_event := true, threads := m.threads.map (fun _ => false) }

/-- When `_monitoring_loop` returns on its own (the `break` after too many
consecutive errors), the thread running it terminates: the tracked (most
recent) thread becomes dead. No field other than that liveness changes. -/
def Monitor.threadExit (m : Monitor) : Monitor :=
  { m with threads :=
      match m.threads with
      | [] => []
      | _ :: rest => false :: rest }

/-!
## Monitoring loop failure policy

`Monitor._monitoring_loop` (monitor.py lines 345-388), restricted to the
error-handling skeleton: each iteration either succeeds (resetting the
consecutive-error counter) or raises (incrementing it); at 5 consecutive
errors the loop breaks, otherwise it backs off and continues.
-/

/-- `min(self.interval * (2 ** consecutive_errors), self.interval * 10)`
(monitor.py line 382). -/
def backoff (interval : ℚ) (consecutive_errors : Nat) : ℚ :=
  min (interval * 2 ^ consecutive_errors) (interval * 10)

/-- `backoff += (backoff * 0.1) * (time.time() % 1)` (monitor.py line 383);
`frac` stands for `time.time() % 1`. -/
def addJitter (b : ℚ) (frac : ℚ) : ℚ := b + b * (1 / 10) * frac

/-- Outcome of one loop iteration: the loop either breaks out, or proceeds to
the next iteration with an updated error counter after waiting `wait`. -/
inductive LoopStep where
  | exit : LoopStep
  | next (consecutive_errors : Nat) (wait : ℚ) : LoopStep
deriving DecidableEq

/-- One iteration of `_monitoring_loop` (monitor.py lines 351-388), given
whether the body raised. On success the counter resets and the loop waits
`min(1, interval / 10)`; on an error the counter increments, and either the
ceiling of 5 is reached (`break`) or the loop waits the jittered backoff. -/
def loopIter (interval jfrac : ℚ) (consecutive_errors : Nat) (raised : Bool) :
    LoopStep :=
  if raised then
    let e := consecutive_errors + 1
    if 5 ≤ e then LoopStep.exit
    else LoopStep.next e (addJitter (backoff interval e) jfrac)
  else LoopStep.next 0 (min 1 (interval / 10))

/-- Run `_monitoring_loop` over a finite trace of iteration outcomes
(`true` = the body raised), with the stop event never set. Returns the
consecutive-error counter if the loop is still running after the trace, or
`none` if the loop terminated itself. -/
def monitoringLoop (interval jfrac : ℚ) : Nat → List Bool → Option Nat
  | errs, [] => some errs
  | errs, raised :: rest =>
    match loopIter interval jfrac errs raised with
    | LoopStep.exit => none
    | LoopStep.next e _ => monitoringLoop interval jfrac e rest

/-!
## Alert evaluation

`Monitor.alerts` (monitor.py lines 304-343). The produced f-strings are
abstracted into an `Alert` datatype, one constructor per `alerts.append`
site, carrying exactly the data interpolated into the message.
-/

/-- One alert message, by append site in `Monitor.alerts`. -/
inductive Alert where
  | highCpu (percent : ℚ)
  | highRam (percent : ℚ)
  | lowDisk (mount : String) (percent : ℚ)
  | criticalTemp (sensor_name : String) (current : ℚ)
  | highTemp (sensor_name : String) (current : ℚ)
deriving DecidableEq

/-- Embedding of `DiskInfo` (state.py lines 5-11). -/
structure DiskInfo where
  mount : String
  percent : ℚ
  total_gb : ℚ
  used_gb : ℚ
  free_gb : ℚ
deriving DecidableEq

/-- One entry of a `state.temperatures` sensor list (a per-sensor dict from
psutil): `current` is always present (the code indexes it directly), while
`high` and `critical` may be missing or `None`. -/
structure TempInfo where
  label : String
  current : ℚ
  high : Option ℚ
  critical : Option ℚ
deriving DecidableEq

/-- The part of `State` (state.py lines 26-38) read by `Monitor.alerts`:
the `temperatures` dict, as a list of (sensor name, entries) pairs in
iteration order. The other snapshot fields are not consulted by `alerts`. -/
structure State where
  temperatures : List (String × List TempInfo)
deriving DecidableEq

/-- The guard `temp_info.get('critical') and temp_info['current'] >=
temp_info['critical']` (monitor.py line 327): the threshold must be present
and truthy (a float is falsy exactly when it is 0) and reached. -/
def critHit (ti : TempInfo) : Bool :=
  match ti.critical with
  | some c => decide (c ≠ 0 ∧ c ≤ ti.current)
  | none => false

/-- The guard `temp_info.get('high') and temp_info['current'] >=
temp_info['high']` (monitor.py line 329). -/
def highHit (ti : TempInfo) : Bool :=
  match ti.high with
  | some h => decide (h ≠ 0 ∧ h ≤ ti.current)
  | none => false

/-- Alerts produced for one temperature entry (monitor.py lines 327-330):
the `if`/`elif` gives the critical alert precedence over the high alert. -/
def tempAlert (sensor_name : String) (ti : TempInfo) : List Alert :=
  if critHit ti then [Alert.criticalTemp sensor_name ti.current]
  else if highHit ti then [Alert.highTemp sensor_name ti.current]
  else []

/-- The disk check inside the slow-metrics branch (monitor.py lines
318-320): a disk produces an alert iff `disk.percent > self.disk_limit`. -/
def diskAlert (disk_limit : ℚ) (d : DiskInfo) : Option Alert :=
  if disk_limit < d.percent then some (Alert.lowDisk d.mount d.percent)
  else none

/-- The three thresholds stored unchanged by `Monitor.__init__`
(monitor.py lines 165-167). -/
structure Thresholds where
  cpu_limit : ℚ
  ram_limit : ℚ
  disk_limit : ℚ
deriving DecidableEq

/-- Embedding of `Monitor.__init__`'s handling of the thresholds
(monitor.py lines 155-203): the three arguments are assigned to fields
unchanged and no validation of any kind is performed, so construction never
raises. The `Except` result type makes a constructor-time Python exception
representable. -/
def Monitor.construct (cpu_limit ram_limit disk_limit : ℚ) :
    Except String Thresholds :=
  Except.ok ⟨cpu_limit, ram_limit, disk_limit⟩

/-- The environment a single `Monitor.alerts` call runs in, with the cache
interaction made explicit: `fast_cpu`/`fast_ram` are what
`_get_fast_metrics()` returns (cached or fresh — either way both fields are
compared to their limits), `slow_cached` is `self.cache.get('slow_metrics')`
at call time, and `fresh_disks` is the disk table `_get_slow_metrics()`
would compute on a cache miss (monitor.py lines 246-276). -/
structure AlertInputs where
  limits : Thresholds
  fast_cpu : ℚ
  fast_ram : ℚ
  slow_cached : Option (List DiskInfo)
  fresh_disks : List DiskInfo
deriving DecidableEq

/-- `_get_slow_metrics()` as called from `alerts` (monitor.py lines
246-276): return the cached disk table if present, else compute it fresh. -/
def getSlowDisks (inp : AlertInputs) : List DiskInfo :=
  match inp.slow_cached with
  | some ds => ds
  | none => inp.fresh_disks

/-- `Monitor.alerts` (monitor.py lines 304-330), producing the returned
list: fast metrics are always compared to their limits; the disk checks run
only under `if force_full_check or self.cache.get('slow_metrics') is None`;
temperature checks run only when a full state was supplied. -/
def Monitor.alerts (inp : AlertInputs) (state : Option State)
    (force_full_check : Bool) : List Alert :=
  (if inp.limits.cpu_limit < inp.fast_cpu then [Alert.highCpu inp.fast_cpu]
   else []) ++
  (if inp.limits.ram_limit < inp.fast_ram then [Alert.highRam inp.fast_ram]
   else []) ++
  (if force_full_check || inp.slow_cached.isNone then
    (getSlowDisks inp).filterMap (diskAlert inp.limits.disk_limit)
   else []) ++
  (match state with
   | some st => st.temperatures.flatMap (fun p => p.2.flatMap (tempAlert p.1))
   | none => [])

/-- `_deliver_alert` (monitor.py lines 334-338): the sink call is wrapped in
`try`/`except`, so a raising sink only yields a logged error line. The
result is the list of log lines — the function is total, so no sink
exception propagates. -/
def deliverAlert (sink : Alert → Except String Unit) (a : Alert) :
    List String :=
  match sink a with
  | Except.ok _ => []
  | Except.error e => ["Failed to deliver alert: " ++ e]

/-- `Monitor.alerts` including the dispatch loop (monitor.py lines
332-343): every generated alert is handed to `_deliver_alert` (each on its
own daemon thread), and the full alert list is returned regardless of sink
outcomes. -/
def Monitor.alertsAndDeliver (inp : AlertInputs) (state : Option State)
    (force_full_check : Bool) (sink : Alert → Except String Unit) :
    List Alert × List (List String) :=
  let msgs := Monitor.alerts inp state force_full_check
  (msgs, msgs.map (deliverAlert sink))

/-!
## quick_monitor

`quick_monitor` (monitor.py lines 446-492) applies Python `or` to each
threshold argument before passing it to `Monitor(...)`: `None` and `0` are
falsy, so they are replaced by `int(os.getenv(NAME, default))`.
-/

/-- Python `x or d` for an optional float `x`: `None` and `0` are falsy. -/
def pyOrDefault (x : Option ℚ) (d : ℚ) : ℚ :=
  match x with
  | some v => if v = 0 then d else v
  | none => d

/-- `int(os.getenv(NAME, default))` (monitor.py lines 467-469): the parsed
environment variable if set, else the hard-coded default. -/
def getenvInt (env : Option ℤ) (d : ℤ) : ℤ := env.getD d

/-- The thresholds `quick_monitor` passes to `Monitor(...)` (monitor.py
lines 467-469 and 484-492); `env_cpu`/`env_ram`/`env_disk` model the
`SYSTEM_MONITOR_*_LIMIT` environment variables. `Monitor.construct` stores
these unchanged. -/
def quick_monitor (env_cpu env_ram env_disk : Option ℤ)
    (cpu_limit ram_limit disk_limit : Option ℚ) : Thresholds :=
  ⟨pyOrDefault cpu_limit ((getenvInt env_cpu 80 : ℤ) : ℚ),
   pyOrDefault ram_limit ((getenvInt env_ram 85 : ℤ) : ℚ),
   pyOrDefault disk_limit ((getenvInt env_disk 90 : ℤ) : ℚ)⟩

/-!
## Concrete fixtures used by witness theorems
-/

/-- An alert environment with a missed slow-metrics cache: CPU over its
limit, RAM under, and one nearly full disk to be discovered fresh. -/
def inpMiss : AlertInputs :=
  ⟨⟨50, 50, 50⟩, 90, 10, none, [⟨"root", 95, 100, 95, 5⟩]⟩

/-- The same thresholds with a still-fresh slow-metrics cache entry holding
a nearly full disk. -/
def inpCached : AlertInputs :=
  ⟨⟨50, 50, 50⟩, 90, 10, some [⟨"root", 95, 100, 95, 5⟩], []⟩

/-- A temperature entry at 90 °C with high 80 and critical 85 — the
precedence example from the specification. -/
def tiCrit : TempInfo := ⟨"core", 90, some 80, some 85⟩

/-- A cache holding one entry of ttl 5 captured at time 0 and one of
ttl 100 captured at time 0. -/
def cacheW : MetricsCache ℚ :=
  MetricsCache.set
    (MetricsCache.set (MetricsCache.empty : MetricsCache ℚ) "a" 1 0 5)
    "b" 2 0 100

/-- An alert sink that raises on every delivery. -/
def failingSink : Alert → Except String Unit := fun _ => Except.error "boom"

/-!
## Helper lemmas
-/

theorem diskAlert_eq_some {L : ℚ} {d : DiskInfo} {a : Alert} :
    diskAlert L d = some a ↔
      L < d.percent ∧ a = Alert.lowDisk d.mount d.percent := by
  unfold diskAlert
  split
  · case isTrue h => simp [h, eq_comm]
  · case isFalse h => simp [h]

theorem tempAlert_shape {s : String} {ti : TempInfo} {a : Alert}
    (hmem : a ∈ tempAlert s ti) :
    a = Alert.criticalTemp s ti.current ∨ a = Alert.highTemp s ti.current := by
  unfold tempAlert at hmem
  split at hmem
  · simp at hmem
    exact Or.inl hmem
  · split at hmem
    · simp at hmem
      exact Or.inr hmem
    · simp at hmem

theorem mem_alerts_iff (inp : AlertInputs) (st : Option State) (force : Bool)
    (a : Alert) :
    a ∈ Monitor.alerts inp st force ↔
      (inp.limits.cpu_limit < inp.fast_cpu ∧ a = Alert.highCpu inp.fast_cpu) ∨
      (inp.limits.ram_limit < inp.fast_ram ∧ a = Alert.highRam inp.fast_ram) ∨
      ((force = true ∨ inp.slow_cached = none) ∧
        ∃ d ∈ getSlowDisks inp, inp.limits.disk_limit < d.percent ∧
          a = Alert.lowDisk d.mount d.percent) ∨
      (∃ s, st = some s ∧ ∃ sensor entries,
        (sensor, entries) ∈ s.temperatures ∧
        ∃ ti ∈ entries, a ∈ tempAlert sensor ti) := by
  cases st with
  | none =>
    simp only [Monitor.alerts, Bool.or_eq_true, Option.isNone_iff_eq_none,
      List.append_assoc, List.append_nil, List.mem_append,
      List.mem_ite_nil_right, List.mem_singleton, List.mem_filterMap,
      diskAlert_eq_some, reduceCtorEq, false_and, exists_false, or_false]
  | some s =>
    simp only [Monitor.alerts, Bool.or_eq_true, Option.isNone_iff_eq_none,
      List.append_assoc, List.mem_append, List.mem_ite_nil_right,
      List.mem_singleton, List.mem_filterMap, diskAlert_eq_some,
      List.mem_flatMap, Prod.exists, Option.some.injEq, exists_eq_left']

/-!
## Claim theorems
-/

/-- C1 (code evaluated at the failing input): after `start(); stop()`, a
further `start()` is a no-op — the stop event is still set, so `start`
returns before reaching its `clear()` — and the monitor stays non-running
with no loop launched, contradicting the claim that `start()` on a
non-running monitor clears the stop signal and transitions to Running. -/
theorem c1_start_after_stop_is_noop :
    Monitor.start (Monitor.stop (Monitor.start Monitor.initial)) =
      Monitor.stop (Monitor.start Monitor.initial) ∧
    Monitor.is_running (Monitor.stop (Monitor.start Monitor.initial)) = false ∧
    Monitor.is_running
      (Monitor.start (Monitor.stop (Monitor.start Monitor.initial))) = false ∧
    Monitor.activeLoops
      (Monitor.start (Monitor.stop (Monitor.start Monitor.initial))) = 0 := by
  refine ⟨rfl, rfl, rfl, rfl⟩

/-- C2: five consecutive raising iterations make the monitoring loop break
out on its own (whatever would follow), after which the loop thread dies and
`is_running` is `false` while the stop event was never set; with fewer than
five consecutive errors the loop instead continues with a backoff wait of
`min(interval * 2 ^ errors, interval * 10)` plus jitter. -/
theorem c2_circuit_breaker (interval jfrac : ℚ) :
    (∀ rest : List Bool,
      monitoringLoop interval jfrac 0 (List.replicate 5 true ++ rest) = none) ∧
    (∀ errs : Nat, errs + 1 < 5 →
      loopIter interval jfrac errs true =
        LoopStep.next (errs + 1)
          (addJitter (backoff interval (errs + 1)) jfrac)) ∧
    Monitor.is_running (Monitor.threadExit (Monitor.start Monitor.initial)) =
      false ∧
    (Monitor.threadExit (Monitor.start Monitor.initial)).stop_event = false := by
  refine ⟨fun rest => rfl, fun errs h => ?_, rfl, rfl⟩
  have h5 : ¬ (5 ≤ errs + 1) := by omega
  simp [loopIter, h5]

/-- Witness for C2 at interval 60 and jitter fraction 0. -/
theorem c2_circuit_breaker_witness :
    monitoringLoop 60 0 0 (List.replicate 5 true ++ [false]) = none ∧
    loopIter 60 0 1 true = LoopStep.next 2 (addJitter (backoff 60 2) 0) ∧
    Monitor.is_running (Monitor.threadExit (Monitor.start Monitor.initial)) =
      false :=
  ⟨(c2_circuit_breaker 60 0).1 [false],
   (c2_circuit_breaker 60 0).2.1 1 (by omega),
   (c2_circuit_breaker 60 0).2.2.1⟩

/-- C3 counterexample: constructing a Monitor with `cpu_limit = 150`, well
outside [0, 100], does not raise — it succeeds and stores 150 unchanged. -/
theorem c3_counterexample :
    Monitor.construct 150 70 80 = Except.ok ⟨150, 70, 80⟩ := rfl

/-- C3 (amended): for every threshold configuration outside the valid range,
constructing a Monitor succeeds anyway — `__init__` performs no validation,
so the out-of-range values are stored unchanged, neither rejected nor
clamped. -/
theorem c3_no_validation (cpu ram disk : ℚ)
    (_ : cpu < 0 ∨ 100 < cpu ∨ ram < 0 ∨ 100 < ram ∨ disk < 0 ∨ 100 < disk) :
    Monitor.construct cpu ram disk = Except.ok ⟨cpu, ram, disk⟩ := rfl

/-- Witness for C3 (amended) with an out-of-range RAM limit. -/
theorem c3_no_validation_witness :
    Monitor.construct 50 120 90 = Except.ok ⟨50, 120, 90⟩ :=
  c3_no_validation 50 120 90 (by norm_num)

/-- C4: after `set(k, v, ttl)` at time `t_set`, a `get(k)` at time `now`
returns `v` while `now - t_set ≤ ttl` and returns `None` once
`now - t_set > ttl`. -/
theorem c4_cache_ttl (α : Type) (c : MetricsCache α) (k : String) (v : α)
    (t_set ttl now : ℚ) :
    (now - t_set ≤ ttl →
      (MetricsCache.set c k v t_set ttl).get now k = some v) ∧
    (ttl < now - t_set →
      (MetricsCache.set c k v t_set ttl).get now k = none) := by
  constructor <;> intro h
  · simp [MetricsCache.get, MetricsCache.set, CachedMetric.is_expired,
      not_lt.mpr h]
  · simp [MetricsCache.get, MetricsCache.set, CachedMetric.is_expired, h]

/-- Witness for C4: value 7 cached at time 0 with ttl 5 is returned at time
3 and absent at time 6. -/
theorem c4_cache_ttl_witness :
    (MetricsCache.set (MetricsCache.empty : MetricsCache ℚ) "k" 7 0 5).get
      3 "k" = some 7 ∧
    (MetricsCache.set (MetricsCache.empty : MetricsCache ℚ) "k" 7 0 5).get
      6 "k" = none :=
  ⟨(c4_cache_ttl ℚ MetricsCache.empty "k" 7 0 5 3).1 (by norm_num),
   (c4_cache_ttl ℚ MetricsCache.empty "k" 7 0 5 6).2 (by norm_num)⟩

/-- C5: `alerts` always evaluates the fast metrics against their limits
(the CPU and RAM alerts appear iff the limits are exceeded); disk usage is
evaluated iff `force_full_check` is set or the slow-tier cache entry is
absent, and when it is not evaluated no disk alert appears even if a disk
exceeds `disk_limit`. -/
theorem c5_alert_tiering (inp : AlertInputs) (st : Option State)
    (force : Bool) :
    (Alert.highCpu inp.fast_cpu ∈ Monitor.alerts inp st force ↔
      inp.limits.cpu_limit < inp.fast_cpu) ∧
    (Alert.highRam inp.fast_ram ∈ Monitor.alerts inp st force ↔
      inp.limits.ram_limit < inp.fast_ram) ∧
    ((force = true ∨ inp.slow_cached = none) →
      ∀ d ∈ getSlowDisks inp, inp.limits.disk_limit < d.percent →
        Alert.lowDisk d.mount d.percent ∈ Monitor.alerts inp st force) ∧
    (force = false → inp.slow_cached ≠ none →
      ∀ mount p, Alert.lowDisk mount p ∉ Monitor.alerts inp st force) := by
  refine ⟨?_, ?_, ?_, ?_⟩
  · rw [mem_alerts_iff]
    constructor
    · rintro (⟨h, _⟩ | ⟨_, heq⟩ | ⟨_, d, _, _, heq⟩ |
        ⟨s, _, sensor, entries, _, ti, _, hmem⟩)
      · exact h
      · exact Alert.noConfusion heq
      · exact Alert.noConfusion heq
      · rcases tempAlert_shape hmem with heq | heq <;> exact Alert.noConfusion heq
    · intro h
      exact Or.inl ⟨h, rfl⟩
  · rw [mem_alerts_iff]
    constructor
    · rintro (⟨_, heq⟩ | ⟨h, _⟩ | ⟨_, d, _, _, heq⟩ |
        ⟨s, _, sensor, entries, _, ti, _, hmem⟩)
      · exact Alert.noConfusion heq
      · exact h
      · exact Alert.noConfusion heq
      · rcases tempAlert_shape hmem with heq | heq <;> exact Alert.noConfusion heq
    · intro h
      exact Or.inr (Or.inl ⟨h, rfl⟩)
  · intro hev d hd hp
    rw [mem_alerts_iff]
    exact Or.inr (Or.inr (Or.inl ⟨hev, d, hd, hp, rfl⟩))
  · intro hf hs mount p hmem
    rw [mem_alerts_iff] at hmem
    rcases hmem with ⟨_, heq⟩ | ⟨_, heq⟩ | ⟨hev, _⟩ |
      ⟨s, _, sensor, entries, _, ti, _, hmem⟩
    · exact Alert.noConfusion heq
    · exact Alert.noConfusion heq
    · rcases hev with hev | hev
      · rw [hf] at hev
        exact Bool.noConfusion hev
      · exact hs hev
    · rcases tempAlert_shape hmem with heq | heq <;> exact Alert.noConfusion heq

/-- Witness for C5: with the slow cache missed the over-limit CPU and the
full disk both alert; with the slow cache still fresh and no force, the same
full disk produces no alert. -/
theorem c5_alert_tiering_witness :
    Alert.highCpu inpMiss.fast_cpu ∈ Monitor.alerts inpMiss none false ∧
    Alert.lowDisk "root" 95 ∈ Monitor.alerts inpMiss none false ∧
    (∀ mount p, Alert.lowDisk mount p ∉ Monitor.alerts inpCached none false) :=
  ⟨(c5_alert_tiering inpMiss none false).1.mpr (by norm_num [inpMiss]),
   (c5_alert_tiering inpMiss none false).2.2.1 (Or.inr rfl)
     ⟨"root", 95, 100, 95, 5⟩ (by simp [getSlowDisks, inpMiss])
     (by norm_num [inpMiss]),
   fun mount p =>
     (c5_alert_tiering inpCached none false).2.2.2 rfl
       (by simp [inpCached]) mount p⟩

/-- C6: for a temperature entry whose high and critical thresholds are both
present and non-zero, reaching `critical` emits exactly the one critical
alert (and no high alert), while reaching `high` but staying below
`critical` emits exactly the one high alert — the two are mutually
exclusive. -/
theorem c6_temp_precedence (sensor_name : String) (ti : TempInfo) (c h : ℚ)
    (hc : ti.critical = some c) (hh : ti.high = some h)
    (hc0 : c ≠ 0) (hh0 : h ≠ 0) :
    (c ≤ ti.current →
      tempAlert sensor_name ti =
        [Alert.criticalTemp sensor_name ti.current]) ∧
    (ti.current < c → h ≤ ti.current →
      tempAlert sensor_name ti = [Alert.highTemp sensor_name ti.current]) := by
  constructor
  · intro hcur
    have hcrit : critHit ti = true := by
      unfold critHit
      rw [hc]
      simp [hc0, hcur]
    simp [tempAlert, hcrit]
  · intro h1 h2
    have hcrit : critHit ti = false := by
      unfold critHit
      rw [hc]
      simp [not_le.mpr h1]
    have hhigh : highHit ti = true := by
      unfold highHit
      rw [hh]
      simp [hh0, h2]
    simp [tempAlert, hcrit, hhigh]

/-- Witness for C6: the spec's example — current 90, high 80, critical 85 —
yields exactly one critical alert. -/
theorem c6_temp_precedence_witness :
    tempAlert "coretemp" tiCrit =
      [Alert.criticalTemp "coretemp" tiCrit.current] :=
  (c6_temp_precedence "coretemp" tiCrit 85 80 rfl rfl (by norm_num)
    (by norm_num)).1 (by norm_num [tiCrit])

/-- C7: the alert list returned by `alerts` does not depend on the sink at
all — even an always-raising sink leaves the full generated list intact —
every generated alert gets its own delivery attempt, and a raising sink
produces a logged error line instead of a propagated exception. -/
theorem c7_sink_isolation (inp : AlertInputs) (st : Option State)
    (force : Bool) (sink : Alert → Except String Unit) :
    (Monitor.alertsAndDeliver inp st force sink).1 =
      Monitor.alerts inp st force ∧
    (Monitor.alertsAndDeliver inp st force sink).2 =
      (Monitor.alerts inp st force).map (deliverAlert sink) ∧
    (∀ sink2 : Alert → Except String Unit,
      (Monitor.alertsAndDeliver inp st force sink).1 =
        (Monitor.alertsAndDeliver inp st force sink2).1) ∧
    (∀ a e, sink a = Except.error e →
      deliverAlert sink a = ["Failed to deliver alert: " ++ e]) := by
  refine ⟨rfl, rfl, fun sink2 => rfl, fun a e h => ?_⟩
  simp [deliverAlert, h]

/-- Witness for C7 with the always-raising sink. -/
theorem c7_sink_isolation_witness :
    (Monitor.alertsAndDeliver inpMiss none false failingSink).1 =
      Monitor.alerts inpMiss none false ∧
    deliverAlert failingSink (Alert.highCpu 90) =
      ["Failed to deliver alert: " ++ "boom"] :=
  ⟨(c7_sink_isolation inpMiss none false failingSink).1,
   (c7_sink_isolation inpMiss none false failingSink).2.2.2
     (Alert.highCpu 90) "boom" rfl⟩

/-- C8: `clear_expired` at time `now` removes exactly the entries whose age
exceeds their ttl: an expired entry is gone, a fresh entry survives with
value, capture time and ttl unchanged, and absent keys stay absent. -/
theorem c8_clear_expired_exact (α : Type) (c : MetricsCache α) (now : ℚ)
    (k : String) :
    (∀ m : CachedMetric α, c k = some m → m.ttl < now - m.timestamp →
      MetricsCache.clear_expired c now k = none) ∧
    (∀ m : CachedMetric α, c k = some m → now - m.timestamp ≤ m.ttl →
      MetricsCache.clear_expired c now k = some m) ∧
    (c k = none → MetricsCache.clear_expired c now k = none) := by
  refine ⟨fun m hm h => ?_, fun m hm h => ?_, fun hm => ?_⟩
  · simp [MetricsCache.clear_expired, hm, h]
  · simp [MetricsCache.clear_expired, hm, not_lt.mpr h]
  · simp [MetricsCache.clear_expired, hm]

/-- Witness for C8: at time 10, the entry with ttl 5 set at time 0 is
removed while the entry with ttl 100 set at time 0 survives unchanged. -/
theorem c8_clear_expired_exact_witness :
    MetricsCache.clear_expired cacheW 10 "a" = none ∧
    MetricsCache.clear_expired cacheW 10 "b" = some ⟨2, 0, 100⟩ :=
  ⟨(c8_clear_expired_exact ℚ cacheW 10 "a").1 ⟨1, 0, 5⟩ (by decide)
     (by norm_num),
   (c8_clear_expired_exact ℚ cacheW 10 "b").2.1 ⟨2, 0, 100⟩ (by decide)
     (by norm_num)⟩

/-- C9: with no overriding environment variable, `quick_monitor` replaces a
threshold argument of 0 by the hard-coded default (80 for CPU, 85 for RAM,
90 for disk), whereas constructing `Monitor` directly keeps a threshold of
0 unchanged. -/
theorem c9_quick_monitor_zero_defaults (r d : Option ℚ) (r2 d2 : ℚ) :
    (quick_monitor none none none (some 0) r d).cpu_limit = 80 ∧
    (quick_monitor none none none r (some 0) d).ram_limit = 85 ∧
    (quick_monitor none none none r d (some 0)).disk_limit = 90 ∧
    Monitor.construct 0 r2 d2 = Except.ok ⟨0, r2, d2⟩ := by
  refine ⟨?_, ?_, ?_, rfl⟩ <;> simp [quick_monitor, pyOrDefault, getenvInt]

/-- C10: a temperature entry whose critical threshold is missing or 0 never
emits a critical alert, whatever its current value; likewise a missing or 0
high threshold never emits a high alert. -/
theorem c10_falsy_threshold_no_alert (sensor_name : String) (ti : TempInfo) :
    ((ti.critical = none ∨ ti.critical = some 0) →
      ∀ v, Alert.criticalTemp sensor_name v ∉ tempAlert sensor_name ti) ∧
    ((ti.high = none ∨ ti.high = some 0) →
      ∀ v, Alert.highTemp sensor_name v ∉ tempAlert sensor_name ti) := by
  constructor
  · intro hfalsy v hmem
    have hcrit : critHit ti = false := by
      unfold critHit
      rcases hfalsy with hf | hf <;> simp [hf]
    simp [tempAlert, hcrit] at hmem
  · intro hfalsy v hmem
    have hhigh : highHit ti = false := by
      unfold highHit
      rcases hfalsy with hf | hf <;> simp [hf]
    simp [tempAlert, hhigh] at hmem

/-- Witness for C10: an entry at 95 °C with critical `None` and high 0
produces no alert at all. -/
theorem c10_falsy_threshold_no_alert_witness :
    Alert.criticalTemp "zone" 95 ∉ tempAlert "zone" ⟨"z", 95, some 0, none⟩ ∧
    Alert.highTemp "zone" 95 ∉ tempAlert "zone" ⟨"z", 95, some 0, none⟩ :=
  ⟨(c10_falsy_threshold_no_alert "zone" ⟨"z", 95, some 0, none⟩).1
     (Or.inl rfl) 95,
   (c10_falsy_threshold_no_alert "zone" ⟨"z", 95, some 0, none⟩).2
     (Or.inr rfl) 95⟩
